import Mathlib

/-!
Shallow embedding of the OpenStack Zun provider of virtual-kubelet
(providers/openstack/zun.go): the capsule data model, the Pod data model,
the Pod/Capsule translators, the status state mappers and the lifecycle
operations, together with theorems about them.

Machine integers and Go floats are modelled as Int and Rat; Go maps are
modelled as association lists whose lookup returns the zero value "" for a
missing key, matching Go map-indexing semantics; fallible Go calls
returning (value, error) pairs are modelled with Except or with explicit
Option pairs mirroring the Go signature.
-/

namespace Zun

/-- Truncation toward zero on rationals: the semantics of a Go float64 to
int64 conversion for in-range values (used for int64(c.CPU) in the
capsule-to-pod translation). For a normalized rational, dividing the
numerator by the (positive) denominator with Int division (which truncates
toward zero) is exactly truncation toward zero. -/
def ratTrunc (q : ℚ) : Int := q.num / (q.den : Int)

/-- Floor of a rational, via Euclidean division of the numerator by the
positive denominator. -/
def ratFloor (q : ℚ) : Int := Int.ediv q.num (q.den : Int)

/-- Ceiling of a rational. -/
def ratCeil (q : ℚ) : Int := -(ratFloor (-q))

/-- Kubernetes Quantity.MilliValue: the value scaled to milli units,
rounded up (ceil(q * 1000)). -/
def milliValue (q : ℚ) : Int := ratCeil (q * 1000)

/-- Kubernetes Quantity.Value: the canonical value rounded up to an
integer. -/
def quantityValue (q : ℚ) : Int := ratCeil q

/-- Decimal digit accumulator for atoi. -/
def atoiDigits : List Char → Nat → Option Nat
  | [], acc => some acc
  | c :: cs, acc =>
    if c.isDigit then atoiDigits cs (acc * 10 + (c.toNat - 48)) else none

/-- Go strconv.Atoi restricted to unsigned decimal input: the parsed
number, or none (an error) on empty or non-digit input. -/
def atoi (s : String) : Option Nat :=
  match s.data with
  | [] => none
  | l => atoiDigits l 0

/-- Go map lookup on an association list: the value bound to the key, or
the string zero value "" when the key is absent (Go map indexing with a
missing key yields the zero value). -/
def mapGet (m : List (String × String)) (key : String) : String :=
  ((m.find? (fun kv => kv.1 == key)).map Prod.snd).getD ""

/-- A version-tagged network address of a capsule
(gophercloud capsules Address: Version is a float64, Addr a string). -/
structure Address where
  Version : ℚ := 0
  Addr : String := ""
deriving DecidableEq

/-- A container record nested in a capsule (gophercloud capsules.Container
fields read by zun.go: Name, Image, Command, Status, StatusDetail, CPU,
Memory, ContainerID, CreatedAt, UpdatedAt). Timestamps are modelled as
Nat. -/
structure CapsuleContainer where
  Name : String := ""
  Image : String := ""
  Command : String := ""
  Status : String := ""
  StatusDetail : String := ""
  CPU : ℚ := 0
  Memory : String := ""
  ContainerID : String := ""
  CreatedAt : Nat := 0
  UpdatedAt : Nat := 0
deriving DecidableEq

/-- A remote capsule record (gophercloud capsules.Capsule fields read by
zun.go). MetaLabels is the Go map modelled as an association list;
Addresses is the Go map from network name to address list. -/
structure Capsule where
  UUID : String := ""
  MetaName : String := ""
  MetaLabels : List (String × String) := []
  Status : String := ""
  RestartPolicy : String := ""
  CapsuleVersion : String := ""
  CreatedAt : Nat := 0
  UpdatedAt : Nat := 0
  Addresses : List (String × List Address) := []
  Containers : List CapsuleContainer := []
deriving DecidableEq

/-- Kubernetes pod phase (v1.PodPhase values used by zun.go). -/
inductive PodPhase where
  | Pending
  | Running
  | Succeeded
  | Failed
  | Unknown
deriving DecidableEq

/-- v1.ContainerStateWaiting. -/
structure ContainerStateWaiting where
  Reason : String := ""
  Message : String := ""
deriving DecidableEq

/-- v1.ContainerStateRunning. -/
structure ContainerStateRunning where
  StartedAt : Nat := 0
deriving DecidableEq

/-- v1.ContainerStateTerminated. -/
structure ContainerStateTerminated where
  ExitCode : Int := 0
  Reason : String := ""
  Message : String := ""
  StartedAt : Nat := 0
  FinishedAt : Nat := 0
deriving DecidableEq

/-- v1.ContainerState: three optional branches, at most one of which is
populated by the state mapper. -/
structure ContainerState where
  Waiting : Option ContainerStateWaiting := none
  Running : Option ContainerStateRunning := none
  Terminated : Option ContainerStateTerminated := none
deriving DecidableEq

/-- v1.ResourceList restricted to the two resource names zun.go touches;
a missing entry of the Go map is a none. Quantities are the canonical
rational value (cores for cpu, bytes for memory). -/
structure ResourceList where
  cpu : Option ℚ := none
  memory : Option ℚ := none
deriving DecidableEq

/-- v1.ResourceRequirements: Limits and Requests are nilable Go maps. -/
structure ResourceRequirements where
  Limits : Option ResourceList := none
  Requests : Option ResourceList := none
deriving DecidableEq

/-- v1.Container fields read or written by zun.go. -/
structure Container where
  Name : String := ""
  Image : String := ""
  Command : List String := []
  Args : List String := []
  WorkingDir : String := ""
  ImagePullPolicy : String := ""
  Env : List (String × String) := []
  Resources : ResourceRequirements := {}
deriving DecidableEq

/-- v1.ContainerStatus fields written by capsuleToPod. -/
structure ContainerStatus where
  Name : String := ""
  State : ContainerState := {}
  LastTerminationState : ContainerState := {}
  Ready : Bool := false
  RestartCount : Int := 0
  Image : String := ""
  ImageID : String := ""
  ContainerID : String := ""
deriving DecidableEq

/-- v1.PodStatus fields written by capsuleToPod. -/
structure PodStatus where
  Phase : PodPhase := PodPhase.Unknown
  Conditions : List String := []
  Message : String := ""
  Reason : String := ""
  HostIP : String := ""
  PodIP : String := ""
  StartTime : Option Nat := none
  ContainerStatuses : List ContainerStatus := []
deriving DecidableEq

/-- v1.PodSpec fields read or written by zun.go. -/
structure PodSpec where
  NodeName : String := ""
  RestartPolicy : String := ""
  Volumes : List String := []
  Containers : List Container := []
deriving DecidableEq

/-- v1.Pod fields read or written by zun.go. CreationTimestamp is modelled
as Nat; its Go String() form is modelled by toString. -/
structure Pod where
  Kind : String := ""
  APIVersion : String := ""
  Name : String := ""
  Namespace : String := ""
  ClusterName : String := ""
  UID : String := ""
  CreationTimestamp : Nat := 0
  Spec : PodSpec := {}
  Status : PodStatus := {}
deriving DecidableEq

/-- zunContainerStausToContainerStatus (zun.go:442): maps a capsule
container status string to a v1.ContainerState, populating exactly one of
the Running, Terminated or Waiting branches. -/
def zunContainerStausToContainerStatus (cs : CapsuleContainer) : ContainerState :=
  if cs.Status = "Running" ∨ cs.Status = "Stopped" then
    { Running := some { StartedAt := cs.CreatedAt } }
  else if cs.Status = "Error" ∨ cs.Status = "Dead" then
    { Terminated := some { ExitCode := 0, Reason := cs.Status, Message := cs.StatusDetail,
                           StartedAt := cs.CreatedAt, FinishedAt := cs.UpdatedAt } }
  else
    { Waiting := some { Reason := cs.Status, Message := cs.StatusDetail } }

/-- zunStatusToPodPhase (zun.go:485): maps a container status string to a
pod phase; the Go switch is a sequence of equality tests with a default. -/
def zunStatusToPodPhase (status : String) : PodPhase :=
  if status = "Running" then PodPhase.Running
  else if status = "Stopped" then PodPhase.Succeeded
  else if status = "Error" then PodPhase.Failed
  else if status = "Dead" then PodPhase.Failed
  else if status = "Creating" then PodPhase.Pending
  else if status = "Created" then PodPhase.Pending
  else if status = "Restarting" then PodPhase.Pending
  else if status = "Rebuilding" then PodPhase.Pending
  else if status = "Paused" then PodPhase.Pending
  else if status = "Deleting" then PodPhase.Pending
  else if status = "Deleted" then PodPhase.Pending
  else PodPhase.Unknown

/-- zunCapStatusToPodPhase (zun.go:514): maps a capsule status string to a
pod phase with default Unknown. -/
def zunCapStatusToPodPhase (status : String) : PodPhase :=
  if status = "Running" then PodPhase.Running
  else if status = "Succeeded" then PodPhase.Succeeded
  else if status = "Failed" then PodPhase.Failed
  else if status = "Pending" then PodPhase.Pending
  else PodPhase.Unknown

/-- The per-container spec translation inside capsuleToPod (zun.go:348-369):
the memory quantity comes from strconv.Atoi on the hardcoded string "1024"
(megabytes), divided by 1024 with integer division to gigabytes, then
formatted as a G-suffixed quantity (bytes value g times ten to the ninth);
the capsule container Memory field is not read. -/
def containerFromCapsuleContainer (c : CapsuleContainer) : Container :=
  let containerCommand : List String := [c.Command]
  let containerMemoryMB : Int := ((atoi "1024").getD 0 : Nat)
  let containerMemoryGB : ℚ := ((containerMemoryMB / 1024 : Int) : ℚ)
  { Name := c.Name
    Image := c.Image
    Command := containerCommand
    Resources :=
      { Limits := some { cpu := some ((ratTrunc c.CPU : Int) : ℚ)
                         memory := some (containerMemoryGB * 1000000000) }
        Requests := some { cpu := some ((ratTrunc (c.CPU * 1024 / 100) : Int) : ℚ)
                           memory := some (containerMemoryGB * 1000000000) } } }

/-- The per-container status translation inside capsuleToPod
(zun.go:371-382). -/
def containerStatusFromCapsuleContainer (c : CapsuleContainer) : ContainerStatus :=
  { Name := c.Name
    State := zunContainerStausToContainerStatus c
    LastTerminationState := zunContainerStausToContainerStatus c
    Ready := decide (zunStatusToPodPhase c.Status = PodPhase.Running)
    RestartCount := 0
    Image := c.Image
    ImageID := ""
    ContainerID := c.ContainerID }

/-- The pod IP loop of capsuleToPod (zun.go:388-397): iterate over every
address of every network, overwriting ip with each address whose Version
is 4; there is no early exit, so the final value is the last IPv4 address
in iteration order, or "" when there is none. -/
def capsulePodIP (addrs : List (String × List Address)) : String :=
  addrs.foldl
    (fun ip v => v.2.foldl (fun ip addr => if addr.Version = 4 then addr.Addr else ip) ip)
    ""

/-- All addresses of a capsule in iteration order (the flattening of the
per-network address lists). -/
def joinAddrs (addrs : List (String × List Address)) : List Address :=
  (addrs.map Prod.snd).flatten

/-- capsuleToPod (zun.go:336-430): builds a full v1.Pod from a capsule.
Identity fields come from the MetaLabels mapping, never from the capsule
name; the pod creation time is the capsule creation time; the pod start
time is the capsule update time. -/
def capsuleToPod (capsule : Capsule) : Pod :=
  let podCreationTimestamp := capsule.CreatedAt
  let containerStartTime := capsule.UpdatedAt
  let containers := capsule.Containers.map containerFromCapsuleContainer
  let containerStatuses := capsule.Containers.map containerStatusFromCapsuleContainer
  let ip := capsulePodIP capsule.Addresses
  { Kind := "Pod"
    APIVersion := "v1"
    Name := mapGet capsule.MetaLabels "PodName"
    Namespace := mapGet capsule.MetaLabels "Namespace"
    ClusterName := mapGet capsule.MetaLabels "ClusterName"
    UID := capsule.UUID
    CreationTimestamp := podCreationTimestamp
    Spec := { NodeName := mapGet capsule.MetaLabels "NodeName"
              Volumes := []
              Containers := containers }
    Status := { Phase := zunCapStatusToPodPhase capsule.Status
                Conditions := []
                Message := ""
                Reason := ""
                HostIP := ""
                PodIP := ip
                StartTime := some containerStartTime
                ContainerStatuses := containerStatuses } }

/-- capsuleToPod with the Go (value, error) signature: the source function
always returns a pod and a nil error (there is no failing branch), so the
Except wrapper is always ok. -/
def capsuleToPodE (capsule : Capsule) : Except String Pod :=
  Except.ok (capsuleToPod capsule)

/-- The composed remote name fmt.Sprintf with pattern percent-s dash
percent-s, used by GetPod (zun.go:77), CreatePod (zun.go:162) and
DeletePod (zun.go:439). -/
def composedName (ns name : String) : String := ns ++ "-" ++ name

/-- GetPod (zun.go:76-87): fetch the capsule stored under the composed
name and translate it; any remote error is returned with a nil pod. The
remote fetch is the store parameter. The result pair mirrors the Go
(pod pointer, error) pair. -/
def getPod (store : String → Except String Capsule) (ns name : String) :
    Option Pod × Option String :=
  match store (composedName ns name) with
  | Except.error e => (none, some e)
  | Except.ok capsule =>
    match capsuleToPodE capsule with
    | Except.error e => (none, some e)
    | Except.ok pod => (some pod, none)

/-- GetPods (zun.go:90-127), value semantics of the extraction loop over
the flattened capsule list: skip entries whose NodeName label differs from
the provider node name, skip entries whose translation fails (log and
continue), append the rest in order. -/
def getPods (nodeName : String) : List Capsule → List Pod
  | [] => []
  | c :: rest =>
    if mapGet c.MetaLabels "NodeName" ≠ nodeName then getPods nodeName rest
    else
      match capsuleToPodE c with
      | Except.error _ => getPods nodeName rest
      | Except.ok pod => pod :: getPods nodeName rest

/-- GetPodStatus (zun.go:249-260): call GetPod; propagate its error;
return (nil, nil) when GetPod produced no pod and no error; otherwise
extract the Status field. -/
def getPodStatus (store : String → Except String Capsule) (ns name : String) :
    Option PodStatus × Option String :=
  let r := getPod store ns name
  match r.2 with
  | some e => (none, some e)
  | none =>
    match r.1 with
    | none => (none, none)
    | some pod => (some pod.Status, none)

/-- GetContainerLogs (zun.go:262-264): a fixed placeholder string and a
nil error, for every input. -/
def getContainerLogs (_ns _podName _containerName : String) (_tail : Int) :
    String × Option String :=
  ("not support in Zun Provider", none)

/-- UpdatePod (zun.go:432-435): a no-op that always returns a nil error. -/
def updatePod (_pod : Pod) : Option String := none

/-- DeletePod (zun.go:437-440): delete the capsule stored under the
composed name; the remote delete call is the del parameter and its error
is returned unchanged. -/
def deletePod (del : String → Option String) (pod : Pod) : Option String :=
  del (composedName pod.Namespace pod.Name)

/-- The label mapping built by CreatePod (zun.go:137-146): PodName,
ClusterName, NodeName, Namespace, UID (string form) and CreationTimestamp
(string form). -/
def buildLabels (pod : Pod) : List (String × String) :=
  let podUID := pod.UID
  let podCreationTimestamp := toString pod.CreationTimestamp
  [("PodName", pod.Name),
   ("ClusterName", pod.ClusterName),
   ("NodeName", pod.Spec.NodeName),
   ("Namespace", pod.Namespace),
   ("UID", podUID),
   ("CreationTimestamp", podCreationTimestamp)]

/-- A capsule container entry of a creation request: CPU in fractional
cores and Memory in megabytes, each set only when the corresponding
Kubernetes limit is present (none models the unset Go field). -/
structure ZunContainerRequest where
  Name : String := ""
  Image : String := ""
  Command : List String := []
  WorkDir : String := ""
  ImagePullPolicy : String := ""
  Environment : List (String × String) := []
  CPU : Option ℚ := none
  Memory : Option ℚ := none
deriving DecidableEq

/-- The Go map built from the container Env list: later entries overwrite
earlier bindings of the same name. -/
def envOfList (env : List (String × String)) : List (String × String) :=
  env.foldl (fun m e => m.filter (fun kv => kv.1 != e.1) ++ [(e.1, e.2)]) []

/-- Modelled from the spec: getContainers (zun.go:169-245) reads the
variables cpuLimit and memoryLimit whose declarations are commented out in
the source, so the source function is defective (spec section 9 calls this
a defect and names section 4.4 as the intended contract). Following
sections 4.2 and 4.4: the CPU limit is the Kubernetes milli value divided
by 1000 (fractional cores), the memory limit is the byte value divided by
ten to the ninth and multiplied by 1024 (megabytes), and each field is set
only when the corresponding Kubernetes resource limit is present. The
direct field copies (name, image, command plus args, working directory,
image pull policy, environment) follow the intact source lines 172-183. -/
def zunContainerRequestOfContainer (container : Container) : ZunContainerRequest :=
  { Name := container.Name
    Image := container.Image
    Command := container.Command ++ container.Args
    WorkDir := container.WorkingDir
    ImagePullPolicy := container.ImagePullPolicy
    Environment := envOfList container.Env
    CPU := (container.Resources.Limits.bind ResourceList.cpu).map
      (fun q => ((milliValue q : Int) : ℚ) / 1000)
    Memory := (container.Resources.Limits.bind ResourceList.memory).map
      (fun q => ((quantityValue q : Int) : ℚ) / 1000000000 * 1024) }

/-- getContainers: one request entry per pod container, in order. -/
def getContainers (pod : Pod) : List ZunContainerRequest :=
  pod.Spec.Containers.map zunContainerRequestOfContainer

/-- A capsule creation request: the name field is the addressing argument
passed to the remote create call (zun.go:162), MetaName the label-side
name (zun.go:147). -/
structure CapsuleCreateRequest where
  name : String := ""
  MetaName : String := ""
  MetaLabels : List (String × String) := []
  RestartPolicy : String := ""
  CapsuleVersion : String := ""
  Containers : List ZunContainerRequest := []
deriving DecidableEq

/-- CreatePod (zun.go:131-167) as the capsule creation request it submits:
restart policy copied verbatim, fixed version tag beta, the label mapping
of buildLabels, the composed name as the addressing argument, and the
container list of getContainers. The submission call itself in the source
is defective (it names an undefined client); the request fields are taken
from the intact source lines and, for the containers, from the intended
contract of spec section 4.4. -/
def createPod (pod : Pod) : CapsuleCreateRequest :=
  { name := composedName pod.Namespace pod.Name
    MetaName := pod.Namespace ++ "-" ++ pod.Name
    MetaLabels := buildLabels pod
    RestartPolicy := pod.Spec.RestartPolicy
    CapsuleVersion := "beta"
    Containers := getContainers pod }

/-- Counts the populated branches of a container state. -/
def stateCount (s : ContainerState) : Nat :=
  (if s.Waiting.isSome then 1 else 0) +
  (if s.Running.isSome then 1 else 0) +
  (if s.Terminated.isSome then 1 else 0)

/-- The first IPv4-tagged address of a capsule, following the words of the
specification (spec section 4.5: pod IP chosen as the first IPv4-tagged
address found); stated for comparison with the source behaviour. -/
def specFirstIPv4Addr (capsule : Capsule) : String :=
  match (joinAddrs capsule.Addresses).find? (fun a => decide (a.Version = 4)) with
  | some a => a.Addr
  | none => ""

/-- A concrete pod for the round-trip witness. -/
def c1pod : Pod :=
  { Name := "web"
    Namespace := "ns1"
    ClusterName := "clusterA"
    UID := "uid-1"
    CreationTimestamp := 7
    Spec := { NodeName := "node-1" } }

/-- A concrete capsule carrying the labels built for c1pod, with an
arbitrary capsule name unrelated to the pod identity. -/
def c1capsule : Capsule :=
  { MetaName := "unrelated-name"
    MetaLabels := buildLabels c1pod }

/-- A concrete capsule with two IPv4-tagged addresses on one network. -/
def c8capsule : Capsule :=
  { Addresses := [("net1", [{ Version := 4, Addr := "10.0.0.1" },
                            { Version := 4, Addr := "10.0.0.2" }])] }

/-- The scenario pod of spec section 8: namespace ns1, name web, one
container c1 with image nginx, cpu limit 500m (half a core) and memory
limit 256Mi (268435456 bytes). -/
def c6ScenarioPod : Pod :=
  { Name := "web"
    Namespace := "ns1"
    Spec := { Containers := [{ Name := "c1"
                               Image := "nginx"
                               Resources := { Limits := some { cpu := some (1/2)
                                                               memory := some 268435456 } } }] } }

/-- Helper: the fold of the inner address loop computes the last IPv4
address in iteration order (the first match of the reversed list), or the
initial value when there is none. -/
theorem foldl_ip_eq_reverse_find (l : List Address) (init : String) :
    l.foldl (fun ip addr => if addr.Version = 4 then addr.Addr else ip) init =
      (match l.reverse.find? (fun a => decide (a.Version = 4)) with
       | some a => a.Addr
       | none => init) := by
  induction l generalizing init with
  | nil => rfl
  | cons a t ih =>
    rw [List.foldl_cons, List.reverse_cons, List.find?_append, ih]
    rcases h : t.reverse.find? (fun a => decide (a.Version = 4)) with _ | b <;>
      simp only [h] <;> by_cases hv : a.Version = 4 <;>
      simp [List.find?, hv, Option.or]

/-- Helper: the nested fold over per-network address lists equals the fold
over the flattened address list. -/
theorem capsulePodIP_eq_flatten (addrs : List (String × List Address)) (init : String) :
    addrs.foldl
        (fun ip v => v.2.foldl (fun ip addr => if addr.Version = 4 then addr.Addr else ip) ip)
        init =
      (joinAddrs addrs).foldl (fun ip addr => if addr.Version = 4 then addr.Addr else ip) init := by
  induction addrs generalizing init with
  | nil => rfl
  | cons v rest ih => simp [joinAddrs, List.foldl_append, ih]

/-- C1: for every pod, building the creation-request labels (CreatePod,
zun.go:137-146) and translating any capsule carrying exactly those labels
back with capsuleToPod reproduces the namespace, name, cluster name and
node name exactly; the capsule name and every other capsule field are
arbitrary, so the recovery uses only the label mapping. -/
theorem c1_labels_roundtrip (pod : Pod) (capsule : Capsule)
    (h : capsule.MetaLabels = buildLabels pod) :
    (capsuleToPod capsule).Namespace = pod.Namespace ∧
    (capsuleToPod capsule).Name = pod.Name ∧
    (capsuleToPod capsule).ClusterName = pod.ClusterName ∧
    (capsuleToPod capsule).Spec.NodeName = pod.Spec.NodeName := by
  obtain ⟨u, mn, ml, st, rp, cv, ca, ua, ad, cs⟩ := capsule
  subst h
  exact ⟨rfl, rfl, rfl, rfl⟩

/-- C1 witness: the round trip at the concrete pod c1pod through the
concrete capsule c1capsule, whose capsule name is unrelated to the pod. -/
theorem c1_labels_roundtrip_witness :
    (capsuleToPod c1capsule).Namespace = c1pod.Namespace ∧
    (capsuleToPod c1capsule).Name = c1pod.Name ∧
    (capsuleToPod c1capsule).ClusterName = c1pod.ClusterName ∧
    (capsuleToPod c1capsule).Spec.NodeName = c1pod.Spec.NodeName :=
  c1_labels_roundtrip c1pod c1capsule rfl

/-- C2: the container state mapper is total and returns exactly one of the
Waiting, Running or Terminated branches: Running and Stopped yield a
Running state whose start time is the container creation time; Error and
Dead yield a Terminated state with reason the raw status and message the
status detail; every other string yields a Waiting state with reason the
raw status and message the status detail. -/
theorem c2_container_state_mapper (cs : CapsuleContainer) :
    stateCount (zunContainerStausToContainerStatus cs) = 1 ∧
    zunContainerStausToContainerStatus cs =
      (if cs.Status = "Running" ∨ cs.Status = "Stopped" then
        { Running := some { StartedAt := cs.CreatedAt } }
      else if cs.Status = "Error" ∨ cs.Status = "Dead" then
        { Terminated := some { ExitCode := 0, Reason := cs.Status, Message := cs.StatusDetail,
                               StartedAt := cs.CreatedAt, FinishedAt := cs.UpdatedAt } }
      else
        { Waiting := some { Reason := cs.Status, Message := cs.StatusDetail } }) := by
  refine ⟨?_, rfl⟩
  unfold zunContainerStausToContainerStatus
  split
  · rfl
  · split <;> rfl

/-- C5: CreatePod, GetPod and DeletePod all address the remote capsule by
the identical composed name namespace dash name: the creation request name
is the composed name, DeletePod deletes exactly the creation-request name,
GetPod consults the remote store only at that name (replacing the store by
its value at that single name changes nothing), and the name is invariant
under changes of the pod UID and creation timestamp. -/
theorem c5_name_addressing (pod : Pod) (store : String → Except String Capsule)
    (del : String → Option String) (uid : String) (ts : Nat) :
    (createPod pod).name = composedName pod.Namespace pod.Name ∧
    deletePod del pod = del ((createPod pod).name) ∧
    getPod store pod.Namespace pod.Name =
      getPod (fun _ => store ((createPod pod).name)) pod.Namespace pod.Name ∧
    (createPod { pod with UID := uid, CreationTimestamp := ts }).name = (createPod pod).name ∧
    deletePod del { pod with UID := uid, CreationTimestamp := ts } = deletePod del pod :=
  ⟨rfl, rfl, rfl, rfl, rfl⟩

/-- C7: the capsule-status to pod-phase mapping is total: Running,
Succeeded, Failed and Pending map to the like-named phases and every other
string maps to Unknown. -/
theorem c7_capsule_status_phase :
    zunCapStatusToPodPhase "Running" = PodPhase.Running ∧
    zunCapStatusToPodPhase "Succeeded" = PodPhase.Succeeded ∧
    zunCapStatusToPodPhase "Failed" = PodPhase.Failed ∧
    zunCapStatusToPodPhase "Pending" = PodPhase.Pending ∧
    ∀ s : String, s ≠ "Running" → s ≠ "Succeeded" → s ≠ "Failed" → s ≠ "Pending" →
      zunCapStatusToPodPhase s = PodPhase.Unknown := by
  refine ⟨rfl, rfl, rfl, rfl, ?_⟩
  intro s h1 h2 h3 h4
  simp [zunCapStatusToPodPhase, h1, h2, h3, h4]

/-- C7 witness: the default branch at the concrete unmatched status
Paused. -/
theorem c7_capsule_status_phase_witness :
    zunCapStatusToPodPhase "Paused" = PodPhase.Unknown :=
  c7_capsule_status_phase.2.2.2.2 "Paused" (by decide) (by decide) (by decide) (by decide)

/-- C9: the unsupported operations never return an error: UpdatePod is a
no-op returning a nil error for every pod, and GetContainerLogs returns
the fixed placeholder string with a nil error for every namespace, pod
name, container name and tail value. -/
theorem c9_unsupported_never_error :
    (∀ pod : Pod, updatePod pod = none) ∧
    (∀ (ns podName containerName : String) (tail : Int),
      getContainerLogs ns podName containerName tail =
        ("not support in Zun Provider", none)) :=
  ⟨fun _ => rfl, fun _ _ _ _ => rfl⟩

/-- Helper: the translated memory limit and request are the constant 1 G
(ten to the ninth bytes), for every capsule container. -/
theorem containerMemory_const (cc : CapsuleContainer) :
    (containerFromCapsuleContainer cc).Resources.Limits.bind ResourceList.memory =
      some ((1000000000 : ℚ)) ∧
    (containerFromCapsuleContainer cc).Resources.Requests.bind ResourceList.memory =
      some ((1000000000 : ℚ)) := by
  have h : (((((atoi "1024").getD 0 : Nat) : Int) / 1024 : Int) : ℚ) * 1000000000 =
      ((1000000000 : ℚ)) := by
    rw [show atoi "1024" = some 1024 from rfl]
    norm_num
  constructor
  · show some ((((((atoi "1024").getD 0 : Nat) : Int) / 1024 : Int) : ℚ) * 1000000000) =
      some ((1000000000 : ℚ))
    exact congrArg some h
  · show some ((((((atoi "1024").getD 0 : Nat) : Int) / 1024 : Int) : ℚ) * 1000000000) =
      some ((1000000000 : ℚ))
    exact congrArg some h

/-- C10: every container produced by capsuleToPod reports a memory limit
and memory request of exactly 1 G (ten to the ninth bytes, from the
hardcoded "1024" megabyte constant), whatever the capsule container Memory
field holds; the translation-back path never reads that field (changing it
changes neither the translated container nor the translated container
status). -/
theorem c10_memory_hardcoded (capsule : Capsule) (c : CapsuleContainer) (m : String) :
    ((capsuleToPod capsule).Spec.Containers.map
        (fun pc => pc.Resources.Limits.bind ResourceList.memory)) =
      capsule.Containers.map (fun _ => some ((1000000000 : ℚ))) ∧
    ((capsuleToPod capsule).Spec.Containers.map
        (fun pc => pc.Resources.Requests.bind ResourceList.memory)) =
      capsule.Containers.map (fun _ => some ((1000000000 : ℚ))) ∧
    containerFromCapsuleContainer { c with Memory := m } = containerFromCapsuleContainer c ∧
    containerStatusFromCapsuleContainer { c with Memory := m } =
      containerStatusFromCapsuleContainer c := by
  refine ⟨?_, ?_, rfl, rfl⟩
  · show List.map _ (List.map containerFromCapsuleContainer capsule.Containers) = _
    rw [List.map_map]
    exact List.map_congr_left fun cc _ => (containerMemory_const cc).1
  · show List.map _ (List.map containerFromCapsuleContainer capsule.Containers) = _
    rw [List.map_map]
    exact List.map_congr_left fun cc _ => (containerMemory_const cc).2

/-- C3: GetPods returns exactly the translations, in order, of the capsule
entries whose NodeName label equals the configured node name and whose
translation succeeds: an entry with a non-matching NodeName label is
skipped, an entry whose translation fails is skipped, and neither kind of
entry aborts the enumeration of the remaining entries. -/
theorem c3_getpods_filter (nodeName : String) (caps : List Capsule) :
    getPods nodeName caps =
      (caps.filter (fun c => mapGet c.MetaLabels "NodeName" == nodeName)).filterMap
        (fun c => (capsuleToPodE c).toOption) := by
  induction caps with
  | nil => rfl
  | cons c rest ih =>
    by_cases h : mapGet c.MetaLabels "NodeName" = nodeName
    · simp [getPods, h, capsuleToPodE, Except.toOption, ih]
    · simp [getPods, h, ih]

/-- C4 amended: GetPodStatus returns exactly the GetPod result with the
Status field extracted from the pod component; when the remote fetch fails
— which per the error taxonomy includes the not-found case — GetPodStatus
propagates that error rather than returning the empty result, since GetPod
never produces a nil pod together with a nil error. -/
theorem c4_getpodstatus_extract (store : String → Except String Capsule) (ns name : String) :
    getPodStatus store ns name =
      ((getPod store ns name).1.map Pod.Status, (getPod store ns name).2) ∧
    (∀ e, store (composedName ns name) = Except.error e →
      getPodStatus store ns name = (none, some e)) := by
  constructor
  · cases h : store (composedName ns name) <;>
      simp [getPod, getPodStatus, capsuleToPodE, h]
  · intro e he
    simp [getPod, getPodStatus, he]

/-- C4 witness: with a remote store holding no capsules (every fetch
fails with a not-found error), GetPodStatus returns that error. -/
theorem c4_getpodstatus_extract_witness :
    getPodStatus (fun _ => Except.error "Resource not found") "ns1" "web" =
      (none, some "Resource not found") :=
  (c4_getpodstatus_extract (fun _ => Except.error "Resource not found") "ns1" "web").2
    "Resource not found" rfl

/-- C4 counterexample: when the pod does not exist the remote fetch yields
an error and GetPodStatus returns it — it does not return the empty
(nil status, nil error) result the claim asserts. -/
theorem c4_counterexample :
    getPodStatus (fun _ => Except.error "Resource not found") "ns1" "web" ≠
      ((none : Option PodStatus), (none : Option String)) := by
  simp [getPodStatus, getPod]

/-- C6: on the intended create-path translation (the source getContainers
is defective, see its model above), the scenario pod with namespace ns1,
name web and one container with cpu limit 500m and memory limit 256Mi
yields a request addressed to the name ns1-web whose container CPU is
exactly one half (millicores divided by 1000) and whose memory field,
divided back by 1024 to gigabytes, overshoots 0.256 GB by less than five
percent (256Mi is 0.268435456 decimal GB); and for every container the
request CPU and Memory fields are the images of the corresponding
Kubernetes limits, hence set exactly when those limits are present. -/
theorem c6_scenario_units :
    (createPod c6ScenarioPod).name = "ns1-web" ∧
    (createPod c6ScenarioPod).Containers.map ZunContainerRequest.CPU = [some ((1/2 : ℚ))] ∧
    (createPod c6ScenarioPod).Containers.map ZunContainerRequest.Memory =
      [some ((274877906944 : ℚ) / 1000000000)] ∧
    (256/1000 < (274877906944 : ℚ) / 1000000000 / 1024 ∧
      (274877906944 : ℚ) / 1000000000 / 1024 - 256/1000 < 256/1000 * (5/100)) ∧
    (∀ cont : Container,
      (zunContainerRequestOfContainer cont).CPU =
        (cont.Resources.Limits.bind ResourceList.cpu).map
          (fun q => ((milliValue q : Int) : ℚ) / 1000) ∧
      (zunContainerRequestOfContainer cont).Memory =
        (cont.Resources.Limits.bind ResourceList.memory).map
          (fun q => ((quantityValue q : Int) : ℚ) / 1000000000 * 1024)) := by
  have hfloor : ∀ n : Int, ratFloor ((n : ℚ)) = n := by
    intro n
    simp only [ratFloor, Rat.num_intCast, Rat.den_intCast, Nat.cast_one]
    exact Int.ediv_one n
  have hceil : ∀ n : Int, ratCeil ((n : ℚ)) = n := by
    intro n
    unfold ratCeil
    rw [← Int.cast_neg, hfloor, Int.neg_neg]
  have hmv : milliValue ((1/2 : ℚ)) = 500 := by
    unfold milliValue
    rw [show ((1/2 : ℚ) * 1000) = ((500 : Int) : ℚ) by norm_num, hceil]
  have hqv : quantityValue ((268435456 : ℚ)) = 268435456 := by
    unfold quantityValue
    rw [show ((268435456 : ℚ)) = ((268435456 : Int) : ℚ) by norm_num, hceil]
  refine ⟨rfl, ?_, ?_, by norm_num, fun cont => ⟨rfl, rfl⟩⟩
  · show [some (((milliValue ((1/2 : ℚ)) : Int) : ℚ) / 1000)] = [some ((1/2 : ℚ))]
    rw [hmv]
    norm_num
  · show [some (((quantityValue ((268435456 : ℚ)) : Int) : ℚ) / 1000000000 * 1024)] =
      [some ((274877906944 : ℚ) / 1000000000)]
    rw [hqv]
    norm_num

/-- C8 amended: capsuleToPod sets the PodIP to the last IPv4-tagged
address in iteration order — the loop overwrites the ip variable on every
version-4 address and never breaks early — ignoring every address not
tagged with version 4; when no IPv4-tagged address is present the PodIP is
the empty string. -/
theorem c8_podip_last_ipv4 (capsule : Capsule) :
    (capsuleToPod capsule).Status.PodIP =
      (match (joinAddrs capsule.Addresses).reverse.find? (fun a => decide (a.Version = 4)) with
       | some a => a.Addr
       | none => "") := by
  show capsulePodIP capsule.Addresses = _
  unfold capsulePodIP
  rw [capsulePodIP_eq_flatten, foldl_ip_eq_reverse_find]

/-- C8 counterexample: a capsule reporting two IPv4-tagged addresses on
one network translates to a PodIP equal to the second (last) one, not the
first IPv4-tagged address the claim asserts. -/
theorem c8_counterexample :
    (capsuleToPod c8capsule).Status.PodIP = "10.0.0.2" ∧
    specFirstIPv4Addr c8capsule = "10.0.0.1" ∧
    (capsuleToPod c8capsule).Status.PodIP ≠ specFirstIPv4Addr c8capsule := by
  refine ⟨by decide, by decide, by decide⟩

end Zun
